import Mathlib

/-!
Verification of the Federal-Parliament-Scraper extraction engine.

This file gives a shallow embedding, in Lean 4, of the parts of the
scraper that the specification claims talk about:

* string cleaning and the banned-fragment filter (util.py),
* the vote data model, tally reconciliation and passage rules (vote.py),
* the vote-table shape parsers (vote.py, GenericVote.from_table and
  LanguageGroupVote.from_table),
* the agenda-item cross-check of the vote locator, the item-id recovery
  of the topic segmenter, the topic classifier and the related-document
  linker (meeting.py),
* the capped recursive retry of document and question initialization
  (document.py).

HTML nodes are embedded by their extracted text: a vote-table row is the
list of the text contents of its cells (the text of the p tag inside
each td), a title run is represented by the leading number recovered
from it (if any), and a fetched page by the classification the code
performs on its content.  Fallible Python code is embedded with explicit
result types: PyResult distinguishes a raised exception, a returned
None, and a returned value.
-/

namespace Scraper

/-! ## util.py -/

/-- Whitespace as recognised by the Python str.split and str.strip used
in clean_string (ASCII whitespace plus NBSP and NEL, the only
non-ASCII whitespace characters that occur in these documents). -/
def pyIsSpace (c : Char) : Bool :=
  c = ' ' || c = '\t' || c = '\n' || c = '\r' ||
  c = '\u000b' || c = '\u000c' || c = ' ' || c = '\u0085'

/-- Splitting on whitespace runs, dropping empty pieces: the behaviour
of the argument-less Python str.split in clean_string. -/
def splitWordsAux : List Char → List Char → List (List Char)
  | [], acc => if acc.isEmpty then [] else [acc.reverse]
  | c :: cs, acc =>
    if pyIsSpace c then
      (if acc.isEmpty then splitWordsAux cs [] else acc.reverse :: splitWordsAux cs [])
    else
      splitWordsAux cs (c :: acc)

/-- Joining words with a single space: the space-join in clean_string. -/
def joinSpace : List (List Char) → List Char
  | [] => []
  | [w] => w
  | w :: ws => w ++ ' ' :: joinSpace ws

/-- Embeds str.replace with an empty replacement (character removal). -/
def removeChar (x : Char) (cs : List Char) : List Char :=
  cs.filter (fun c => c ≠ x)

/-- Embeds str.replace of one character by another. -/
def replaceChar (x y : Char) (cs : List Char) : List Char :=
  cs.map (fun c => if c = x then y else c)

/-- Strips leading whitespace (Python lstrip). -/
def stripLeft : List Char → List Char
  | [] => []
  | c :: cs => if pyIsSpace c then stripLeft cs else c :: cs

/-- util.clean_string: whitespace-run collapsing, removal of carriage
returns and dots, replacement of newline and NBSP by a space and of the
soft hyphen by a dash, then strip on both sides. -/
def clean_string (text : String) : String :=
  let joined := joinSpace (splitWordsAux text.data [])
  let s1 := removeChar '\r' joined
  let s2 := removeChar '.' s1
  let s3 := replaceChar '\n' ' ' s2
  let s4 := replaceChar ' ' ' ' s3
  let s5 := replaceChar '­' '-' s4
  String.mk (stripLeft (stripLeft s5.reverse).reverse)

/-- util.banned_set: the known-garbage name fragments that are filtered
out of extracted name lists and vote tables. -/
def banned_set : List String := [
  " Ramaekers Jef",
  " Collignon Christophe",
  "Collignon Christophe",
  "Christophe Collignon",
  " Annane Jihane",
  "Annane Jihane",
  "Jihane Annane",
  "(Ingevolge een technisch mankement werd de stemming van mevrouw Inge Vervotte",
  " afwezig",
  " opgenomen)",
  "(A la suite d’une erreur technique",
  " le vote de Mme Inge Vervotte",
  " absente",
  "(Om technische redenen is er geen stemming nr 2 / Pour raison technique",
  " il n'y a pas de vote n° 2)",
  "(De heer Guido De Padt heeft gestemd vanop de bank van de heer Ludo Van Campenhout",
  " afwezig)",
  " a été enregistré)",
  "<![if !supportEmptyParas]> <![endif]>"
]

/-- util.is_string_banned. -/
def is_string_banned (s : String) : Bool :=
  banned_set.contains s

/-- util.is_string_banned_or_empty: Python truthiness of a string is
its non-emptiness. -/
def is_string_banned_or_empty (s : String) : Bool :=
  s = "" || is_string_banned s

/-- Value of a digit run. -/
def digitsToNat (ds : List Char) : Nat :=
  ds.foldl (fun acc c => acc * 10 + (c.toNat - '0'.toNat)) 0

/-- Embeds the Python int constructor on the already-cleaned strings
that the shape parsers feed it: an optional minus sign followed by a
non-empty digit run parses, anything else raises ValueError (modelled
as Option.none). -/
def pyInt? (s : String) : Option Int :=
  match s.data with
  | [] => Option.none
  | '-' :: ds =>
    if ds.isEmpty then Option.none
    else if ds.all Char.isDigit then Option.some (-(digitsToNat ds : Int))
    else Option.none
  | ds =>
    if ds.all Char.isDigit then Option.some ((digitsToNat ds : Int))
    else Option.none

/-- Substring test over character lists, embedding the Python in
operator on strings. -/
def containsSub (needle : List Char) : List Char → Bool
  | [] => needle.isEmpty
  | c :: cs => needle.isPrefixOf (c :: cs) || containsSub needle cs

/-- Python needle in haystack for strings. -/
def pyIn (needle haystack : String) : Bool :=
  containsSub needle.data haystack.data

/-- Python str.lower (the keywords matched by the classifier are all
ASCII, for which Char.toLower agrees with Python). -/
def pyLower (s : String) : String :=
  String.mk (s.data.map Char.toLower)

/-! ## common.py -/

/-- common.Choice: the three voting choices. -/
inductive Choice where
  | NO
  | YES
  | ABSTENTION
deriving DecidableEq, Repr

/-! ## vote.py: data model and reconciliation -/

/-- A resolved member of parliament, as handed to the reconciliation
setters by the member resolver.  Only its identity matters here. -/
structure Member where
  name : String
deriving DecidableEq, Repr

/-- The state of a vote.GenericVote object that the claims are about:
the tallies, the attached voter lists, and the unsure flag.  The
meeting_topic back-reference does not influence any claimed property
and is omitted. -/
structure GenericVote where
  vote_number : Int
  yes : Int
  no : Int
  abstention : Int
  yes_voters : List Member
  no_voters : List Member
  abstention_voters : List Member
  unsure : Bool
deriving DecidableEq, Repr

/-- GenericVote.__init__ (via Vote.__init__): tallies from the table,
empty voter lists, unsure initialized to False. -/
def GenericVote.init (vote_number yes no abstention : Int) : GenericVote :=
  { vote_number := vote_number, yes := yes, no := no, abstention := abstention,
    yes_voters := [], no_voters := [], abstention_voters := [], unsure := false }

/-- GenericVote.has_passed: yes strictly above no plus abstention. -/
def GenericVote.has_passed (v : GenericVote) : Bool :=
  v.no + v.abstention < v.yes

/-- vote.post_vote_activity: one activity record per member of the
list.  It mutates the members, never the vote, so the setters below
return only the vote state. -/
def post_vote_activity (choice : Choice) (members : List Member) : List (Member × Choice) :=
  members.map (fun m => (m, choice))

/-- GenericVote.set_yes_voters: flags unsure when the resolved list
length differs from the current yes tally by more than 2, then replaces
the tally by the list length. -/
def GenericVote.set_yes_voters (v : GenericVote) (l : List Member) : GenericVote :=
  let u := if 2 < ((l.length : Int) - v.yes).natAbs then true else v.unsure
  { v with unsure := u, yes := (l.length : Int), yes_voters := l }

/-- GenericVote.set_no_voters, same tolerance rule on the no tally. -/
def GenericVote.set_no_voters (v : GenericVote) (l : List Member) : GenericVote :=
  let u := if 2 < ((l.length : Int) - v.no).natAbs then true else v.unsure
  { v with unsure := u, no := (l.length : Int), no_voters := l }

/-- GenericVote.set_abstention_voters, same rule on abstention. -/
def GenericVote.set_abstention_voters (v : GenericVote) (l : List Member) : GenericVote :=
  let u := if 2 < ((l.length : Int) - v.abstention).natAbs then true else v.unsure
  { v with unsure := u, abstention := (l.length : Int), abstention_voters := l }

/-- One reconciliation call on a GenericVote: which voter list is
attached. -/
inductive SetterOp where
  | yes : List Member → SetterOp
  | no : List Member → SetterOp
  | abst : List Member → SetterOp
deriving DecidableEq, Repr

/-- Dispatch of one reconciliation call. -/
def applySetter (v : GenericVote) : SetterOp → GenericVote
  | SetterOp.yes l => v.set_yes_voters l
  | SetterOp.no l => v.set_no_voters l
  | SetterOp.abst l => v.set_abstention_voters l

/-- A sequence of reconciliation calls, applied left to right. -/
def applySetters (v : GenericVote) : List SetterOp → GenericVote
  | [] => v
  | op :: ops => applySetters (applySetter v op) ops

/-- The state of a vote.LanguageGroupVote: the combined tallies held by
the inherited GenericVote part plus the two per-language sub-votes. -/
structure LanguageGroupVote where
  combined : GenericVote
  vote_NL : GenericVote
  vote_FR : GenericVote
deriving DecidableEq, Repr

/-- LanguageGroupVote.__init__: the inherited GenericVote part holds
the sums of the per-language tallies. -/
def LanguageGroupVote.init (vote_number : Int) (vote_NL vote_FR : GenericVote) :
    LanguageGroupVote :=
  { combined := GenericVote.init vote_number (vote_NL.yes + vote_FR.yes)
      (vote_NL.no + vote_FR.no) (vote_NL.abstention + vote_FR.abstention),
    vote_NL := vote_NL, vote_FR := vote_FR }

/-- LanguageGroupVote.has_passed: both language sub-votes must pass. -/
def LanguageGroupVote.has_passed (v : LanguageGroupVote) : Bool :=
  v.vote_NL.has_passed && v.vote_FR.has_passed

/-! ## vote.py: table shape parsers

A table is embedded as the list of its rows, a row as the list of the
text contents of its cells (the text of the p inside each td, as read
by row.find_all of td followed by find of p and get_text). -/

/-- Outcome of a Python call that can raise, return None, or return a
value. -/
inductive PyResult (α : Type) where
  | raised : PyResult α
  | none : PyResult α
  | ok : α → PyResult α
deriving DecidableEq, Repr

/-- Text of cell j of row i, when both exist.  A missing row or cell
(or a td without a p tag) makes the corresponding Python expression
raise, which callers below map to PyResult.raised. -/
def cellText (rows : List (List String)) (i j : Nat) : Option String :=
  (rows.get? i).bind (fun r => r.get? j)

/-- GenericVote.from_table: reads the second cell (index 1) of rows 1,
2 and 3 as the yes, no and abstention tallies.  Only the yes text is
checked for emptiness (the empty-table escape); the remaining cells go
straight into int, whose failure raises. -/
def GenericVote.from_table (vote_number : Int) (vote_rows : List (List String)) :
    PyResult GenericVote :=
  match cellText vote_rows 1 1 with
  | Option.none => PyResult.raised
  | Option.some t1 =>
    let yes_str := clean_string t1
    if yes_str = "" then PyResult.none
    else
      match pyInt? yes_str with
      | Option.none => PyResult.raised
      | Option.some yes =>
        match cellText vote_rows 2 1 with
        | Option.none => PyResult.raised
        | Option.some t2 =>
          match pyInt? (clean_string t2) with
          | Option.none => PyResult.raised
          | Option.some no =>
            match cellText vote_rows 3 1 with
            | Option.none => PyResult.raised
            | Option.some t3 =>
              match pyInt? (clean_string t3) with
              | Option.none => PyResult.raised
              | Option.some abstention =>
                PyResult.ok (GenericVote.init vote_number yes no abstention)

/-- LanguageGroupVote.from_table: reads cells 1 (FR) and 3 (NL) of rows
2, 3 and 4; declines (returns None) when any of the six cleaned texts
is banned or empty, then parses the six tallies with int, whose failure
raises. -/
def LanguageGroupVote.from_table (vote_number : Int) (vote_rows : List (List String)) :
    PyResult LanguageGroupVote :=
  match cellText vote_rows 2 1 with
  | Option.none => PyResult.raised
  | Option.some a =>
  match cellText vote_rows 3 1 with
  | Option.none => PyResult.raised
  | Option.some b =>
  match cellText vote_rows 4 1 with
  | Option.none => PyResult.raised
  | Option.some c =>
  match cellText vote_rows 2 3 with
  | Option.none => PyResult.raised
  | Option.some d =>
  match cellText vote_rows 3 3 with
  | Option.none => PyResult.raised
  | Option.some e =>
  match cellText vote_rows 4 3 with
  | Option.none => PyResult.raised
  | Option.some f =>
    let yes_fr_text := clean_string a
    let no_fr_text := clean_string b
    let abstention_fr_text := clean_string c
    let yes_nl_text := clean_string d
    let no_nl_text := clean_string e
    let abstention_nl_text := clean_string f
    if is_string_banned_or_empty yes_fr_text || is_string_banned_or_empty no_fr_text ||
       is_string_banned_or_empty abstention_fr_text || is_string_banned_or_empty yes_nl_text ||
       is_string_banned_or_empty no_nl_text || is_string_banned_or_empty abstention_nl_text then
      PyResult.none
    else
      match pyInt? yes_fr_text with
      | Option.none => PyResult.raised
      | Option.some yes_fr =>
      match pyInt? no_fr_text with
      | Option.none => PyResult.raised
      | Option.some no_fr =>
      match pyInt? abstention_fr_text with
      | Option.none => PyResult.raised
      | Option.some abstention_fr =>
      match pyInt? yes_nl_text with
      | Option.none => PyResult.raised
      | Option.some yes_nl =>
      match pyInt? no_nl_text with
      | Option.none => PyResult.raised
      | Option.some no_nl =>
      match pyInt? abstention_nl_text with
      | Option.none => PyResult.raised
      | Option.some abstention_nl =>
        PyResult.ok (LanguageGroupVote.init vote_number
          (GenericVote.init vote_number yes_nl no_nl abstention_nl)
          (GenericVote.init vote_number yes_fr no_fr abstention_fr))

/-! ## meeting.py: topic classifier -/

/-- meeting.TopicType. -/
inductive TopicType where
  | GENERAL
  | CURRENT_AFFAIRS
  | BUDGET
  | SECRET_VOTE
  | REVISION_OF_CONSTITUTION
  | INTERPELLATION
  | NAME_VOTE
  | DRAFT_BILL
  | BILL_PROPOSAL
  | LEGISLATION
  | QUESTIONS
deriving DecidableEq, Repr

/-- TopicType.from_section_and_title: ordered keyword rules over the
lowercased Dutch title and section. -/
def TopicType.from_section_and_title (title_NL section_NL : String) : TopicType :=
  let t := pyLower title_NL
  let s := pyLower section_NL
  if pyIn "begroting" s then TopicType.BUDGET
  else if pyIn "actualiteitsdebat" s then TopicType.CURRENT_AFFAIRS
  else if pyIn "naamstemming" s then TopicType.NAME_VOTE
  else if pyIn "geheim" s && pyIn "stemming" s then TopicType.SECRET_VOTE
  else if pyIn "vragen" s || pyIn "vragen" t || pyIn "vraag" t then TopicType.QUESTIONS
  else if pyIn "interpellatie" s then TopicType.INTERPELLATION
  else if pyIn "herziening" s && pyIn "grondwet" s then TopicType.REVISION_OF_CONSTITUTION
  else if pyIn "ontwerp" s || pyIn "voorstel" s then
    (if !(pyIn "ontwerp" s) || pyIn "voorstel" t then TopicType.BILL_PROPOSAL
     else if !(pyIn "voorstel" s) || pyIn "ontwerp" t then TopicType.DRAFT_BILL
     else TopicType.GENERAL)
  else TopicType.GENERAL

/-! ## meeting.py: item-id recovery of the topic segmenter

Inside Meeting.get_meeting_topics, parse_topics keeps a running
counter last_item_id, seeded at 1.  Each title run either yields a
numbered line (the regex of digits, space, text), in which case the
parsed number becomes both the item id and the new counter value, or
yields none, in which case the counter is incremented and its new value
is used as the synthesized item id.  A run is embedded by the number
its numbered line carries, if any. -/

/-- One step of the item-id assignment: returns the assigned item id
and the new value of last_item_id. -/
def itemIdStep (last_item_id : Nat) : Option Nat → Nat × Nat
  | Option.none => (last_item_id + 1, last_item_id + 1)
  | Option.some n => (n, n)

/-- The item ids assigned to a sequence of runs, starting from a given
counter value. -/
def itemIdsAux (last_item_id : Nat) : List (Option Nat) → List Nat
  | [] => []
  | r :: rs =>
    let p := itemIdStep last_item_id r
    p.1 :: itemIdsAux p.2 rs

/-- The item ids assigned by one parse_topics pass: the counter is
seeded at 1. -/
def assignItemIds (runs : List (Option Nat)) : List Nat :=
  itemIdsAux 1 runs

/-! ## meeting.py: bilingual agenda-item cross-check of the vote
locator

In Meeting.__get_votes, for each located vote marker the agenda item
number is recovered independently from the French and the Dutch title
paragraphs (extract_title_by_vote, which returns None when no numbered
title precedes the table).  The code then runs
assert agenda_item1 == agenda_item, and afterwards skips the vote when
the (agreed) value is falsy, that is None or 0. -/

/-- What happens to one vote at the agenda cross-check. -/
inductive AgendaCheck where
  | assertionError
  | skipVote
  | extractVote : Nat → AgendaCheck
deriving DecidableEq, Repr

/-- The cross-check performed for one vote: agenda_item is the French
recovery, agenda_item1 the Dutch one. -/
def agendaItemCheck (agenda_item agenda_item1 : Option Nat) : AgendaCheck :=
  if agenda_item1 ≠ agenda_item then AgendaCheck.assertionError
  else
    match agenda_item with
    | Option.none => AgendaCheck.skipVote
    | Option.some n => if n = 0 then AgendaCheck.skipVote else AgendaCheck.extractVote n

/-- The vote loop of Meeting.__get_votes at the granularity of the
agenda cross-check: each element carries the French and Dutch
recoveries for one vote marker.  Returns the agenda items of the votes
that were extracted and whether the loop was aborted by the
AssertionError (which propagates out of Meeting.get_meeting_topics
uncaught, so the remaining votes are never processed). -/
def processVotes : List (Option Nat × Option Nat) → List Nat × Bool
  | [] => ([], false)
  | (fr, nl) :: rest =>
    match agendaItemCheck fr nl with
    | AgendaCheck.assertionError => ([], true)
    | AgendaCheck.skipVote => processVotes rest
    | AgendaCheck.extractVote n =>
      let p := processVotes rest
      (n :: p.1, p.2)

/-! ## meeting.py: related-document linking -/

/-- A bill reference at the head of a character list: an opening
parenthesis, a non-empty digit run, a slash, and a closing parenthesis
somewhere later.  Returns the digit run.  This is where the regex
fragment of an opening parenthesis, captured digits, and a slash can
anchor in the line. -/
def billRefAt (cs : List Char) : Option (List Char) :=
  match cs with
  | '(' :: rest =>
    let ds := rest.takeWhile Char.isDigit
    if ds.isEmpty then Option.none
    else
      match rest.drop ds.length with
      | '/' :: tail => if tail.contains ')' then Option.some ds else Option.none
      | _ => Option.none
  | _ => Option.none

/-- The digits captured by re.match of the bill-reference pattern on
one line: the leading greedy wildcard makes the match anchor at the
rightmost position where the rest of the pattern succeeds, so the scan
prefers later positions. -/
def lastBillRef : List Char → Option (List Char)
  | [] => Option.none
  | c :: rest =>
    match lastBillRef rest with
    | Option.some ds => Option.some ds
    | Option.none => billRefAt (c :: rest)

/-- Splitting on the newline separator, embedding the Python
str.split with a newline argument used on titles. -/
def splitLinesAux : List Char → List Char → List String
  | [], acc => [String.mk acc.reverse]
  | c :: cs, acc =>
    if c = '\n' then String.mk acc.reverse :: splitLinesAux cs []
    else splitLinesAux cs (c :: acc)

/-- The lines of a title. -/
def titleLines (s : String) : List String :=
  splitLinesAux s.data []

/-- The bill_numbers list built in MeetingTopic.complete_type: one
captured digit run per title line that matches the pattern. -/
def billNumbers (title_NL : String) : List String :=
  (titleLines title_NL).filterMap (fun line => (lastBillRef line.data).map String.mk)

/-- The session-scoped document registry (session.documents together
with construction of new ParliamentaryDocument objects, which register
themselves in it).  Entities are identified by an id that is unique
within the registry. -/
structure DocRegistry where
  nextId : Nat
  documents : List (String × Nat)
deriving DecidableEq, Repr

/-- meeting.create_or_get_doc: return the registered document for this
number, or construct one (which registers itself under its number). -/
def create_or_get_doc (session : DocRegistry) (number : String) : Nat × DocRegistry :=
  match session.documents.lookup number with
  | Option.some d => (d, session)
  | Option.none =>
    (session.nextId,
     { nextId := session.nextId + 1,
       documents := (number, session.nextId) :: session.documents })

/-- The map of create_or_get_doc over bill_numbers, threading the
mutated session registry. -/
def linkDocs : DocRegistry → List String → List Nat × DocRegistry
  | session, [] => ([], session)
  | session, n :: ns =>
    let p := create_or_get_doc session n
    let q := linkDocs p.2 ns
    (p.1 :: q.1, q.2)

/-- The related-document part of MeetingTopic.complete_type: for the
five legislation-linking topic types, link one document per extracted
bill number; other types attach none. -/
def completeTypeDocs (tt : TopicType) (session : DocRegistry) (title_NL : String) :
    List Nat × DocRegistry :=
  if tt = TopicType.BILL_PROPOSAL ∨ tt = TopicType.DRAFT_BILL ∨
     tt = TopicType.LEGISLATION ∨ tt = TopicType.NAME_VOTE ∨ tt = TopicType.SECRET_VOTE then
    linkDocs session (billNumbers title_NL)
  else
    ([], session)

/-! ## document.py: capped recursive retry of initialization -/

/-- Classification that ParliamentaryDocument._initialize performs on a
fetched detail page: the Story div absent, a not-found marker, the
recurring server-error marker, or a normal page.  For
ParliamentaryQuestion._initialize the same shape applies with the body
tag and its does-not-exist marker. -/
inductive PageKind where
  | storyMissing
  | notFound
  | errorMarker
  | good
deriving DecidableEq, Repr

/-- How a call of _initialize returned. -/
inductive InitOutcome where
  | emptyReturn
  | gaveUp
  | proceeded
deriving DecidableEq, Repr

/-- ParliamentaryDocument._initialize, restricted to its fetch-and-retry
skeleton: pages gives the classification of the page fetched on each
attempt, retry is the attempt counter (0 on the first call).  Returns
how the call ended and how many fetches were performed in total.  On
the error marker with retry at least 10 it prints the gave-up
diagnostic and returns with all fields left unset; below 10 it recurses
with retry + 1. -/
def docInitLoop (pages : Nat → PageKind) (retry : Nat) : InitOutcome × Nat :=
  match pages retry with
  | PageKind.storyMissing => (InitOutcome.emptyReturn, 1)
  | PageKind.notFound => (InitOutcome.emptyReturn, 1)
  | PageKind.good => (InitOutcome.proceeded, 1)
  | PageKind.errorMarker =>
    if h : 10 ≤ retry then (InitOutcome.gaveUp, 1)
    else
      let p := docInitLoop pages (retry + 1)
      (p.1, p.2 + 1)
termination_by 10 - retry
decreasing_by omega

/-- ParliamentaryQuestion._initialize has the identical retry skeleton
(body instead of the Story div, a does-not-exist marker instead of
not-found, the same server-error marker and the same cap of 10). -/
def questionInitLoop (pages : Nat → PageKind) (retry : Nat) : InitOutcome × Nat :=
  match pages retry with
  | PageKind.storyMissing => (InitOutcome.emptyReturn, 1)
  | PageKind.notFound => (InitOutcome.emptyReturn, 1)
  | PageKind.good => (InitOutcome.proceeded, 1)
  | PageKind.errorMarker =>
    if h : 10 ≤ retry then (InitOutcome.gaveUp, 1)
    else
      let p := questionInitLoop pages (retry + 1)
      (p.1, p.2 + 1)
termination_by 10 - retry
decreasing_by omega

/-! ## Theorems -/

/-- Helper: the item ids produced when every run of the segment lacks a
numbered line are consecutive from one past the initial counter. -/
theorem itemIdsAux_all_none (runs : List (Option Nat)) :
    ∀ last : Nat, (∀ r ∈ runs, r = Option.none) →
      itemIdsAux last runs = List.range' (last + 1) runs.length := by
  induction runs with
  | nil => intro last _; rfl
  | cons r rs ih =>
    intro last h
    have hr : r = Option.none := h r (by simp)
    subst hr
    have hrest : ∀ x ∈ rs, x = Option.none := fun x hx => h x (by simp [hx])
    simp only [itemIdsAux, itemIdStep, List.length_cons]
    rw [ih (last + 1) hrest]
    rfl

/-- Helper: every reconciliation step keeps an already-set unsure flag
set. -/
theorem applySetter_unsure_true (v : GenericVote) (op : SetterOp) (h : v.unsure = true) :
    (applySetter v op).unsure = true := by
  cases op <;>
    simp only [applySetter, GenericVote.set_yes_voters, GenericVote.set_no_voters,
      GenericVote.set_abstention_voters] <;>
    split <;> simp [h]

/-- Helper: a sequence of reconciliation steps keeps an already-set
unsure flag set. -/
theorem applySetters_unsure_true (ops : List SetterOp) :
    ∀ v : GenericVote, v.unsure = true → (applySetters v ops).unsure = true := by
  induction ops with
  | nil => intro v h; exact h
  | cons op ops ih =>
    intro v h
    exact ih (applySetter v op) (applySetter_unsure_true v op h)

/-- C9: a LanguageGroupVote passes exactly when both its Dutch and
French sub-votes pass, each under the GenericVote rule that yes
strictly exceeds no plus abstention. -/
theorem c9_language_group_passed (v : LanguageGroupVote) :
    v.has_passed = true ↔
      (v.vote_NL.no + v.vote_NL.abstention < v.vote_NL.yes ∧
       v.vote_FR.no + v.vote_FR.abstention < v.vote_FR.yes) := by
  simp [LanguageGroupVote.has_passed, GenericVote.has_passed]

/-- C7 counterexample: on rows whose cells are exactly the texts the
claim states, the GenericVote shape parser reads the second cell of
each row, finds the label Ja, and raises at the int conversion: it does
not return the claimed vote (nor decline). -/
theorem c7_scenario_counterexample :
    GenericVote.from_table 1
        [["(Stemming/vote 1)"], ["", "Ja", "88"], ["", "Nee", "42"],
         ["", "Onthoudingen", "3"], [""]] =
      PyResult.raised ∧
    (PyResult.raised : PyResult GenericVote) ≠ PyResult.none := by
  decide

/-- C7 amended: the tally sits in the second cell (index 1) of rows 1,
2 and 3, so a 5-row table whose rows carry the counts there parses to
the vote with yes 88, no 42, abstention 3, and that vote passes. -/
theorem c7_scenario_amended :
    GenericVote.from_table 1
        [["(Stemming/vote 1)"], ["Ja", "88"], ["Nee", "42"], ["Onthoudingen", "3"], [""]] =
      PyResult.ok (GenericVote.init 1 88 42 3) ∧
    (GenericVote.init 1 88 42 3).has_passed = true := by
  decide

/-- C5: a run with no numbered line is assigned one more than the
running counter, which is seeded at 1, and when no run of the document
has a numbered line the assigned ids are consecutive starting at 2. -/
theorem c5_synthesized_ids :
    (∀ last : Nat, itemIdStep last Option.none = (last + 1, last + 1)) ∧
    ∀ runs : List (Option Nat), (∀ r ∈ runs, r = Option.none) →
      assignItemIds runs = List.range' 2 runs.length := by
  constructor
  · intro last; rfl
  · intro runs h
    exact itemIdsAux_all_none runs 1 h

/-- C5 witness: three unnumbered runs receive ids 2, 3 and 4. -/
theorem c5_synthesized_ids_witness :
    itemIdStep 1 Option.none = (2, 2) ∧
    assignItemIds [Option.none, Option.none, Option.none] = List.range' 2 3 :=
  ⟨c5_synthesized_ids.1 1, c5_synthesized_ids.2 _ (by decide)⟩

/-- C10: the unsure flag starts out false at construction and no
sequence of reconciliation calls resets it once set. -/
theorem c10_unsure_monotone :
    (∀ vn yes no abst : Int, (GenericVote.init vn yes no abst).unsure = false) ∧
    ∀ (v : GenericVote) (ops : List SetterOp),
      v.unsure = true → (applySetters v ops).unsure = true := by
  constructor
  · intro vn yes no abst; rfl
  · intro v ops h
    exact applySetters_unsure_true ops v h

/-- C10 witness: a freshly built vote is not unsure, and a vote that is
already unsure stays unsure through three further reconciliations. -/
theorem c10_unsure_monotone_witness :
    (GenericVote.init 1 2 3 4).unsure = false ∧
    (applySetters
        { vote_number := 1, yes := 0, no := 0, abstention := 0, yes_voters := [],
          no_voters := [], abstention_voters := [], unsure := true }
        [SetterOp.yes [], SetterOp.no [], SetterOp.abst []]).unsure = true :=
  ⟨c10_unsure_monotone.1 1 2 3 4, c10_unsure_monotone.2 _ _ rfl⟩

/-- C3 counterexample: the claimed equivalence fails once an earlier
reconciliation has set the flag.  After set_yes_voters with an empty
list (difference 10) the vote is unsure; the following set_no_voters
with a five-member list matches the reported count of 5 exactly, yet
the vote stays unsure after that call, so unsure does not hold iff the
difference for that choice exceeds 2. -/
theorem c3_unsure_iff_counterexample :
    (((GenericVote.init 1 10 5 0).set_yes_voters []).set_no_voters
        [⟨"a"⟩, ⟨"b"⟩, ⟨"c"⟩, ⟨"d"⟩, ⟨"e"⟩]).unsure = true ∧
    (((GenericVote.init 1 10 5 0).set_yes_voters []).set_no_voters
        [⟨"a"⟩, ⟨"b"⟩, ⟨"c"⟩, ⟨"d"⟩, ⟨"e"⟩]).no = 5 ∧
    (((5 : Int) - 5).natAbs ≤ 2) := by
  decide

/-- C3 amended: after any reconciliation call the stored count for
that choice equals the resolved list length, and the unsure flag after
the call is the flag before the call or-ed with the tolerance test; in
particular on a freshly constructed vote (flag still false) the flag is
set iff the difference between the originally reported count and the
list length exceeds 2. -/
theorem c3_reconciliation (v : GenericVote) (l : List Member) (vn yes no abst : Int) :
    ((v.set_yes_voters l).yes = (l.length : Int) ∧
      (v.set_yes_voters l).unsure =
        (v.unsure || decide (2 < ((l.length : Int) - v.yes).natAbs))) ∧
    ((v.set_no_voters l).no = (l.length : Int) ∧
      (v.set_no_voters l).unsure =
        (v.unsure || decide (2 < ((l.length : Int) - v.no).natAbs))) ∧
    ((v.set_abstention_voters l).abstention = (l.length : Int) ∧
      (v.set_abstention_voters l).unsure =
        (v.unsure || decide (2 < ((l.length : Int) - v.abstention).natAbs))) ∧
    (((GenericVote.init vn yes no abst).set_yes_voters l).unsure = true ↔
      2 < ((l.length : Int) - yes).natAbs) ∧
    (((GenericVote.init vn yes no abst).set_no_voters l).unsure = true ↔
      2 < ((l.length : Int) - no).natAbs) ∧
    (((GenericVote.init vn yes no abst).set_abstention_voters l).unsure = true ↔
      2 < ((l.length : Int) - abst).natAbs) := by
  refine ⟨⟨rfl, ?_⟩, ⟨rfl, ?_⟩, ⟨rfl, ?_⟩, ?_, ?_, ?_⟩ <;>
    simp only [GenericVote.set_yes_voters, GenericVote.set_no_voters,
      GenericVote.set_abstention_voters, GenericVote.init] <;>
    split <;>
    simp_all

/-- C1 counterexample: a vote whose French and Dutch agenda-item
recoveries disagree makes the assert raise, which aborts the loop: the
following vote, whose recoveries agree on item 3, is never extracted,
so the mismatch is fatal to the rest of the meeting's extraction rather
than a logged skip. -/
theorem c1_assert_counterexample :
    processVotes [(Option.some 1, Option.some 2), (Option.some 3, Option.some 3)] =
      ([], true) ∧
    processVotes [(Option.some 3, Option.some 3)] = ([3], false) := by
  decide

/-- C1 amended: a bilingual agenda-item mismatch raises an uncaught
AssertionError that aborts the meeting's vote extraction with the
remaining votes unprocessed; only when both recoveries agree on a
missing item is the vote skipped and extraction of the rest
continues. -/
theorem c1_mismatch_aborts (fr nl : Option Nat) (rest : List (Option Nat × Option Nat)) :
    (nl ≠ fr → processVotes ((fr, nl) :: rest) = ([], true)) ∧
    (processVotes ((Option.none, Option.none) :: rest) = processVotes rest) := by
  constructor
  · intro h
    simp [processVotes, agendaItemCheck, h]
  · simp [processVotes, agendaItemCheck]

/-- C1 witness: a concrete mismatch aborts with nothing extracted, and
a concrete agreed-missing item is skipped with extraction
continuing. -/
theorem c1_mismatch_aborts_witness :
    processVotes [(Option.some 1, Option.some 2)] = ([], true) ∧
    processVotes [(Option.none, Option.none), (Option.some 3, Option.some 3)] =
      processVotes [(Option.some 3, Option.some 3)] :=
  ⟨(c1_mismatch_aborts (Option.some 1) (Option.some 2) []).1 (by decide),
   (c1_mismatch_aborts (Option.some 1) (Option.some 1)
      [(Option.some 3, Option.some 3)]).2⟩

/-- Helper: when every fetched page carries the error marker, the
document initialization gives up after exactly the remaining attempts
allowed by the cap. -/
theorem docInitLoop_all_error (pages : Nat → PageKind)
    (h : ∀ i, pages i = PageKind.errorMarker) :
    ∀ d retry, 10 - retry = d → docInitLoop pages retry = (InitOutcome.gaveUp, d + 1) := by
  intro d
  induction d with
  | zero =>
    intro retry hr
    have h10 : 10 ≤ retry := by omega
    rw [docInitLoop]
    simp [h retry, h10]
  | succ d ih =>
    intro retry hr
    have hlt : ¬ 10 ≤ retry := by omega
    rw [docInitLoop]
    simp [h retry, hlt, ih (retry + 1) (by omega)]

/-- Helper: the same for the question initialization. -/
theorem questionInitLoop_all_error (pages : Nat → PageKind)
    (h : ∀ i, pages i = PageKind.errorMarker) :
    ∀ d retry, 10 - retry = d →
      questionInitLoop pages retry = (InitOutcome.gaveUp, d + 1) := by
  intro d
  induction d with
  | zero =>
    intro retry hr
    have h10 : 10 ≤ retry := by omega
    rw [questionInitLoop]
    simp [h retry, h10]
  | succ d ih =>
    intro retry hr
    have hlt : ¬ 10 ≤ retry := by omega
    rw [questionInitLoop]
    simp [h retry, hlt, ih (retry + 1) (by omega)]

/-- C4: when every fetch of a document's or question's detail page
carries the server-error marker, initialization performs exactly 11
fetches (the first attempt plus 10 retries), then gives up and returns
normally with the fields left unset; no exception is raised. -/
theorem c4_retry_cap (pages : Nat → PageKind)
    (h : ∀ i, pages i = PageKind.errorMarker) :
    docInitLoop pages 0 = (InitOutcome.gaveUp, 11) ∧
    questionInitLoop pages 0 = (InitOutcome.gaveUp, 11) :=
  ⟨docInitLoop_all_error pages h 10 0 rfl, questionInitLoop_all_error pages h 10 0 rfl⟩

/-- C4 witness: the constant error-marker page stream terminates with
the give-up outcome after 11 fetches for both loops. -/
theorem c4_retry_cap_witness :
    docInitLoop (fun _ => PageKind.errorMarker) 0 = (InitOutcome.gaveUp, 11) ∧
    questionInitLoop (fun _ => PageKind.errorMarker) 0 = (InitOutcome.gaveUp, 11) :=
  c4_retry_cap (fun _ => PageKind.errorMarker) (fun _ => rfl)

/-- C6: when none of the earlier classifier rules fires and the
lowercased section contains the draft keyword (ontwerp) or the proposal
keyword (voorstel), the result is BILL_PROPOSAL when the section lacks
the draft keyword or the title has the proposal keyword, otherwise
DRAFT_BILL when the section lacks the proposal keyword or the title has
the draft keyword, otherwise GENERAL, the two conditions being tried in
exactly this order. -/
theorem c6_draft_proposal_order (title_NL section_NL : String)
    (h1 : pyIn "begroting" (pyLower section_NL) = false)
    (h2 : pyIn "actualiteitsdebat" (pyLower section_NL) = false)
    (h3 : pyIn "naamstemming" (pyLower section_NL) = false)
    (h4 : (pyIn "geheim" (pyLower section_NL) && pyIn "stemming" (pyLower section_NL)) = false)
    (h5 : (pyIn "vragen" (pyLower section_NL) || pyIn "vragen" (pyLower title_NL) ||
           pyIn "vraag" (pyLower title_NL)) = false)
    (h6 : pyIn "interpellatie" (pyLower section_NL) = false)
    (h7 : (pyIn "herziening" (pyLower section_NL) && pyIn "grondwet" (pyLower section_NL)) = false)
    (h8 : (pyIn "ontwerp" (pyLower section_NL) || pyIn "voorstel" (pyLower section_NL)) = true) :
    TopicType.from_section_and_title title_NL section_NL =
      (if pyIn "ontwerp" (pyLower section_NL) = false ∨ pyIn "voorstel" (pyLower title_NL) = true
       then TopicType.BILL_PROPOSAL
       else if pyIn "voorstel" (pyLower section_NL) = false ∨
               pyIn "ontwerp" (pyLower title_NL) = true
       then TopicType.DRAFT_BILL
       else TopicType.GENERAL) := by
  have n1 : ¬(pyIn "begroting" (pyLower section_NL) = true) := by simp [h1]
  have n2 : ¬(pyIn "actualiteitsdebat" (pyLower section_NL) = true) := by simp [h2]
  have n3 : ¬(pyIn "naamstemming" (pyLower section_NL) = true) := by simp [h3]
  have n4 : ¬((pyIn "geheim" (pyLower section_NL) &&
      pyIn "stemming" (pyLower section_NL)) = true) := by simp [h4]
  have n5 : ¬((pyIn "vragen" (pyLower section_NL) || pyIn "vragen" (pyLower title_NL) ||
      pyIn "vraag" (pyLower title_NL)) = true) := by simp [h5]
  have n6 : ¬(pyIn "interpellatie" (pyLower section_NL) = true) := by simp [h6]
  have n7 : ¬((pyIn "herziening" (pyLower section_NL) &&
      pyIn "grondwet" (pyLower section_NL)) = true) := by simp [h7]
  simp only [TopicType.from_section_and_title]
  rw [if_neg n1, if_neg n2, if_neg n3, if_neg n4, if_neg n5, if_neg n6, if_neg n7, if_pos h8]
  cases hvs : pyIn "voorstel" (pyLower section_NL) <;>
    cases hvt : pyIn "voorstel" (pyLower title_NL) <;>
      cases hos : pyIn "ontwerp" (pyLower section_NL) <;>
        cases hot : pyIn "ontwerp" (pyLower title_NL) <;>
          simp [hvs, hvt, hos, hot]

/-- C6 witness: a section reading Wetsontwerp with a neutral title
falls through the earlier rules and lands on DRAFT_BILL through the
stated disambiguation order. -/
theorem c6_draft_proposal_order_witness :
    TopicType.from_section_and_title "blabla" "Wetsontwerp" =
      (if pyIn "ontwerp" (pyLower "Wetsontwerp") = false ∨
          pyIn "voorstel" (pyLower "blabla") = true
       then TopicType.BILL_PROPOSAL
       else if pyIn "voorstel" (pyLower "Wetsontwerp") = false ∨
               pyIn "ontwerp" (pyLower "blabla") = true
       then TopicType.DRAFT_BILL
       else TopicType.GENERAL) :=
  c6_draft_proposal_order "blabla" "Wetsontwerp" (by decide) (by decide) (by decide)
    (by decide) (by decide) (by decide) (by decide) (by decide)

/-- C8: when the Dutch title of a DRAFT_BILL topic contains exactly one
line with a parenthesized bill reference, the linker attaches exactly
one related document, registered in the session registry under the
extracted number, and a repeated get-or-create for the same number
returns that same entity without changing the registry. -/
theorem c8_bill_reference_linking (session : DocRegistry) (title_NL : String) (d : String)
    (h : billNumbers title_NL = [d]) :
    ∃ i, (completeTypeDocs TopicType.DRAFT_BILL session title_NL).1 = [i] ∧
      ((completeTypeDocs TopicType.DRAFT_BILL session title_NL).2).documents.lookup d =
        Option.some i ∧
      create_or_get_doc (completeTypeDocs TopicType.DRAFT_BILL session title_NL).2 d =
        (i, (completeTypeDocs TopicType.DRAFT_BILL session title_NL).2) := by
  have hgate : completeTypeDocs TopicType.DRAFT_BILL session title_NL = linkDocs session [d] := by
    rw [completeTypeDocs, h]
    simp
  rw [hgate]
  cases hl : session.documents.lookup d with
  | none =>
    refine ⟨session.nextId, ?_, ?_, ?_⟩
    · simp [linkDocs, create_or_get_doc, hl]
    · simp [linkDocs, create_or_get_doc, hl, List.lookup]
    · simp [linkDocs, create_or_get_doc, hl, List.lookup]
  | some v =>
    refine ⟨v, ?_, ?_, ?_⟩
    · simp [linkDocs, create_or_get_doc, hl]
    · simp [linkDocs, create_or_get_doc, hl]
    · simp [linkDocs, create_or_get_doc, hl]

/-- C8 witness: a concrete title line carrying the reference 1234/5
yields exactly one linked document, the one registered for the number
1234, in an initially empty session registry. -/
theorem c8_bill_reference_linking_witness :
    ∃ i, (completeTypeDocs TopicType.DRAFT_BILL ⟨0, []⟩
            "Wetsontwerp tot wijziging van de wet (1234/5)").1 = [i] ∧
      ((completeTypeDocs TopicType.DRAFT_BILL ⟨0, []⟩
            "Wetsontwerp tot wijziging van de wet (1234/5)").2).documents.lookup "1234" =
        Option.some i ∧
      create_or_get_doc (completeTypeDocs TopicType.DRAFT_BILL ⟨0, []⟩
            "Wetsontwerp tot wijziging van de wet (1234/5)").2 "1234" =
        (i, (completeTypeDocs TopicType.DRAFT_BILL ⟨0, []⟩
            "Wetsontwerp tot wijziging van de wet (1234/5)").2) :=
  c8_bill_reference_linking ⟨0, []⟩ "Wetsontwerp tot wijziging van de wet (1234/5)" "1234"
    (by decide)

/-- C2 counterexample: a GenericVote table whose no-count cell is empty
(the yes cell parses as 88) makes the parser raise at the int
conversion instead of declining: the result is neither a returned None
nor a vote. -/
theorem c2_unparseable_row_counterexample :
    GenericVote.from_table 1 [["x"], ["", "88"], ["", ""], ["", "3"], ["x"]] =
      PyResult.raised ∧
    GenericVote.from_table 1 [["x"], ["", "88"], ["", ""], ["", "3"], ["x"]] ≠
      PyResult.none := by
  decide

/-- C2 amended: the shape parsers decline (return None) exactly on
their emptiness checks — GenericVote only when the cleaned yes cell is
empty, LanguageGroupVote only when all six count cells exist and at
least one cleans to a banned-or-empty string; any other unparseable
count (an empty or non-numeric cell elsewhere) raises instead of
declining. -/
theorem c2_decline_characterization (vn : Int) (rows : List (List String)) :
    (GenericVote.from_table vn rows = PyResult.none ↔
      ∃ s, cellText rows 1 1 = Option.some s ∧ clean_string s = "") ∧
    (LanguageGroupVote.from_table vn rows = PyResult.none ↔
      ∃ a b c d e f,
        cellText rows 2 1 = Option.some a ∧ cellText rows 3 1 = Option.some b ∧
        cellText rows 4 1 = Option.some c ∧ cellText rows 2 3 = Option.some d ∧
        cellText rows 3 3 = Option.some e ∧ cellText rows 4 3 = Option.some f ∧
        (is_string_banned_or_empty (clean_string a) ||
         is_string_banned_or_empty (clean_string b) ||
         is_string_banned_or_empty (clean_string c) ||
         is_string_banned_or_empty (clean_string d) ||
         is_string_banned_or_empty (clean_string e) ||
         is_string_banned_or_empty (clean_string f)) = true) := by
  constructor
  · cases h1 : cellText rows 1 1 with
    | none => simp [GenericVote.from_table, h1]
    | some s =>
      by_cases he : clean_string s = ""
      · simp [GenericVote.from_table, h1, he]
      · cases h2 : pyInt? (clean_string s) with
        | none => simp [GenericVote.from_table, h1, he, h2]
        | some yes =>
          cases h3 : cellText rows 2 1 with
          | none => simp [GenericVote.from_table, h1, he, h2, h3]
          | some t2 =>
            cases h4 : pyInt? (clean_string t2) with
            | none => simp [GenericVote.from_table, h1, he, h2, h3, h4]
            | some no_count =>
              cases h5 : cellText rows 3 1 with
              | none => simp [GenericVote.from_table, h1, he, h2, h3, h4, h5]
              | some t3 =>
                cases h6 : pyInt? (clean_string t3) with
                | none => simp [GenericVote.from_table, h1, he, h2, h3, h4, h5, h6]
                | some ab => simp [GenericVote.from_table, h1, he, h2, h3, h4, h5, h6]
  · cases g1 : cellText rows 2 1 with
    | none => simp [LanguageGroupVote.from_table, g1]
    | some a =>
      cases g2 : cellText rows 3 1 with
      | none => simp [LanguageGroupVote.from_table, g1, g2]
      | some b =>
        cases g3 : cellText rows 4 1 with
        | none => simp [LanguageGroupVote.from_table, g1, g2, g3]
        | some c =>
          cases g4 : cellText rows 2 3 with
          | none => simp [LanguageGroupVote.from_table, g1, g2, g3, g4]
          | some d =>
            cases g5 : cellText rows 3 3 with
            | none => simp [LanguageGroupVote.from_table, g1, g2, g3, g4, g5]
            | some e =>
              cases g6 : cellText rows 4 3 with
              | none => simp [LanguageGroupVote.from_table, g1, g2, g3, g4, g5, g6]
              | some f =>
                by_cases hb :
                    (is_string_banned_or_empty (clean_string a) ||
                     is_string_banned_or_empty (clean_string b) ||
                     is_string_banned_or_empty (clean_string c) ||
                     is_string_banned_or_empty (clean_string d) ||
                     is_string_banned_or_empty (clean_string e) ||
                     is_string_banned_or_empty (clean_string f)) = true
                · simp [LanguageGroupVote.from_table, g1, g2, g3, g4, g5, g6, hb]
                  simpa using hb
                · cases p1 : pyInt? (clean_string a) with
                  | none =>
                    simp [LanguageGroupVote.from_table, g1, g2, g3, g4, g5, g6, hb, p1]
                    simp_all
                  | some i1 =>
                    cases p2 : pyInt? (clean_string b) with
                    | none =>
                      simp [LanguageGroupVote.from_table, g1, g2, g3, g4, g5, g6, hb, p1, p2]
                      simp_all
                    | some i2 =>
                      cases p3 : pyInt? (clean_string c) with
                      | none =>
                        simp [LanguageGroupVote.from_table, g1, g2, g3, g4, g5, g6, hb,
                          p1, p2, p3]
                        simp_all
                      | some i3 =>
                        cases p4 : pyInt? (clean_string d) with
                        | none =>
                          simp [LanguageGroupVote.from_table, g1, g2, g3, g4, g5, g6, hb,
                            p1, p2, p3, p4]
                          simp_all
                        | some i4 =>
                          cases p5 : pyInt? (clean_string e) with
                          | none =>
                            simp [LanguageGroupVote.from_table, g1, g2, g3, g4, g5, g6, hb,
                              p1, p2, p3, p4, p5]
                            simp_all
                          | some i5 =>
                            cases p6 : pyInt? (clean_string f) with
                            | none =>
                              simp [LanguageGroupVote.from_table, g1, g2, g3, g4, g5, g6, hb,
                                p1, p2, p3, p4, p5, p6]
                              simp_all
                            | some i6 =>
                              simp [LanguageGroupVote.from_table, g1, g2, g3, g4, g5, g6, hb,
                                p1, p2, p3, p4, p5, p6]
                              simp_all

end Scraper
